import Mathlib

/-!
Verification of the VIX/SPY iron condor trading core described by the
repository specification.  The repository ships only the product
requirements document, deployment material and a mock-data dashboard
frontend; the backend trading engine (gap evaluator, strike selector,
order lifecycle manager, scheduler, compliance guard) is referenced in
prose but absent from the source tree.  Those components are therefore
modelled from the specification text, while the dashboard rendering
logic of VixMonitor.tsx is embedded directly from the source.
Prices are embedded as rationals.
-/

namespace VixSpy

/-- Modelled from the spec: output of the Gap Evaluator (spec section 3,
GapResult) whose implementation (backend market_data service) is missing
from the repository. -/
structure GapResult where
  isGapUp : Bool
  gapAmount : ℚ
  gapPercentage : ℚ
  deriving Repr, DecidableEq

/-- Modelled from the spec: the error raised by the Gap Evaluator when a
required market-data input is missing (spec sections 4.1 and 7). -/
inductive GapError where
  | InsufficientData
  deriving Repr, DecidableEq

/-- Modelled from the spec: the Gap Evaluator (spec section 4.1), whose
backend implementation is absent from the repository.  gapAmount is the
current open minus the previous close, gapPercentage is gapAmount over
the previous close times 100, isGapUp holds when gapAmount is positive,
and a missing input fails with InsufficientData. -/
def evaluateGap (o prevClose : Option ℚ) : Except GapError GapResult :=
  match o, prevClose with
  | some op, some pc =>
    let gapAmount := op - pc
    Except.ok
      { isGapUp := decide (0 < gapAmount)
        gapAmount := gapAmount
        gapPercentage := gapAmount / pc * 100 }
  | _, _ => Except.error GapError.InsufficientData

/-- Modelled from the spec: the four strike prices of the defined-risk
structure (spec section 3, StructureLegs); the backend strike selector is
absent from the repository. -/
structure StructureLegs where
  putLong : ℚ
  putShort : ℚ
  callShort : ℚ
  callLong : ℚ
  deriving Repr, DecidableEq

/-- Modelled from the spec: the Strike Selector (spec section 4.2),
absent from the repository.  The resolution of the target delta into a
concrete short-strike offset through the broker option chain is left
open by the spec (section 9) and is abstracted here as the positive
offset argument; the long wings sit at short strike plus or minus the
wing width.  Inputs outside the valid range (target delta strictly
between 0 and 1, positive wing width, positive chain offset) produce no
structure. -/
def selectStrikes (spot deltaTarget wingWidth offset : ℚ) : Option StructureLegs :=
  if 0 < deltaTarget ∧ deltaTarget < 1 ∧ 0 < wingWidth ∧ 0 < offset then
    some
      { putLong := spot - offset - wingWidth
        putShort := spot - offset
        callShort := spot + offset
        callLong := spot + offset + wingWidth }
  else none

/-- Modelled from the spec: the order lifecycle states of spec section
4.3; the backend Order Lifecycle Manager is absent from the repository. -/
inductive TradeStatus where
  | Proposed
  | Submitted
  | Filled
  | Monitoring
  | ExitRequested
  | Closed
  | Rejected
  | Expired
  deriving Repr, DecidableEq

/-- A status is terminal when the trade is Closed, Rejected or Expired
(spec section 3: a Trade is immutable once in one of these states). -/
def TradeStatus.isTerminal : TradeStatus → Bool
  | .Closed => true
  | .Rejected => true
  | .Expired => true
  | _ => false

/-- Modelled from the spec: the Trade record (spec section 3), reduced to
the fields the verified properties touch. -/
structure Trade where
  status : TradeStatus
  entryPrice : Option ℚ
  exitPrice : Option ℚ
  realizedPnl : Option ℚ
  deriving Repr, DecidableEq

/-- Modelled from the spec: the per-account engine state seen by the
Order Lifecycle Manager, carrying the trades of one account. -/
structure AccountState where
  trades : List Trade
  deriving Repr, DecidableEq

/-- Modelled from the spec: the invariant-guard error of spec sections
4.3 and 7. -/
inductive EngineError where
  | PositionAlreadyOpen
  deriving Repr, DecidableEq

/-- A freshly proposed trade: legs and quantity computed, nothing sent. -/
def newTrade : Trade :=
  { status := TradeStatus.Proposed
    entryPrice := none
    exitPrice := none
    realizedPnl := none }

/-- Number of trades of the account that are in a non-terminal state. -/
def openCount (ts : List Trade) : Nat :=
  ts.countP (fun t => !t.status.isTerminal)

/-- Whether some trade of the account is in a non-terminal state. -/
def hasOpenTrade (s : AccountState) : Bool :=
  s.trades.any (fun t => !t.status.isTerminal)

/-- Modelled from the spec: creating a new Proposed trade is refused with
PositionAlreadyOpen while any trade is in a non-terminal state (spec
section 4.3), leaving the state unchanged. -/
def proposeTrade (s : AccountState) : Except EngineError AccountState :=
  if hasOpenTrade s then Except.error EngineError.PositionAlreadyOpen
  else Except.ok { s with trades := newTrade :: s.trades }

/-- Proposed to Submitted: the order is sent to the broker gateway. -/
def stepSubmit (t : Trade) : Trade :=
  if t.status = TradeStatus.Proposed then { t with status := TradeStatus.Submitted } else t

/-- Submitted to Rejected: no fill confirmation within the timeout. -/
def stepReject (t : Trade) : Trade :=
  if t.status = TradeStatus.Submitted then { t with status := TradeStatus.Rejected } else t

/-- Submitted to Filled: the entry price is recorded. -/
def stepFill (px : ℚ) (t : Trade) : Trade :=
  if t.status = TradeStatus.Submitted then
    { t with status := TradeStatus.Filled, entryPrice := some px }
  else t

/-- Filled to Monitoring: the position is watched on each tick. -/
def stepMonitor (t : Trade) : Trade :=
  if t.status = TradeStatus.Filled then { t with status := TradeStatus.Monitoring } else t

/-- Monitoring to ExitRequested, used both for the profit-target exit and
for the forced exit at the exit-schedule tick; the transition inspects
only the status, never the sign of the running profit or loss. -/
def forcedExitStep (t : Trade) : Trade :=
  if t.status = TradeStatus.Monitoring then
    { t with status := TradeStatus.ExitRequested }
  else t

/-- ExitRequested to Closed: the exit order is confirmed filled, the exit
price is recorded and realizedPnl is entryPrice minus exitPrice (spec
section 4.3). -/
def settleExit (px : ℚ) (t : Trade) : Trade :=
  if t.status = TradeStatus.ExitRequested then
    { t with status := TradeStatus.Closed
             exitPrice := some px
             realizedPnl := some (t.entryPrice.getD 0 - px) }
  else t

/-- Monitoring or ExitRequested to Expired: neither exit completed before
the session close (spec section 4.3, anomaly path). -/
def stepExpire (t : Trade) : Trade :=
  if t.status = TradeStatus.Monitoring ∨ t.status = TradeStatus.ExitRequested then
    { t with status := TradeStatus.Expired }
  else t

/-- Modelled from the spec: the forced-exit scheduled tick forces every
trade still in Monitoring into ExitRequested regardless of profit or
loss (spec section 4.3). -/
def forcedExitTick (ts : List Trade) : List Trade :=
  ts.map forcedExitStep

/-- Modelled from the spec: the full forced-exit cycle of scenario E: the
tick forces Monitoring trades into ExitRequested and the confirmed exit
fill then closes them at the given exit price. -/
def forcedExitCycle (px : ℚ) (ts : List Trade) : List Trade :=
  (forcedExitTick ts).map (settleExit px)

/-- Replace the trade at the given index by its image under f, leaving
the list unchanged when the index is out of range. -/
def updateAt (f : Trade → Trade) : Nat → List Trade → List Trade
  | _, [] => []
  | 0, t :: ts => f t :: ts
  | i + 1, t :: ts => t :: updateAt f i ts

/-- Modelled from the spec: the operations of the Order Lifecycle
Manager, one per state-machine edge of spec section 4.3 plus the
whole-account forced-exit tick. -/
inductive Op where
  | propose
  | submit (i : Nat)
  | reject (i : Nat)
  | fill (i : Nat) (px : ℚ)
  | startMonitoring (i : Nat)
  | requestExit (i : Nat)
  | forcedExit
  | closeExit (i : Nat) (px : ℚ)
  | expire (i : Nat)

/-- Apply one lifecycle operation; a refused proposal is a no-op. -/
def applyOp (s : AccountState) : Op → AccountState
  | Op.propose =>
    match proposeTrade s with
    | Except.ok s2 => s2
    | Except.error _ => s
  | Op.submit i => { s with trades := updateAt stepSubmit i s.trades }
  | Op.reject i => { s with trades := updateAt stepReject i s.trades }
  | Op.fill i px => { s with trades := updateAt (stepFill px) i s.trades }
  | Op.startMonitoring i => { s with trades := updateAt stepMonitor i s.trades }
  | Op.requestExit i => { s with trades := updateAt forcedExitStep i s.trades }
  | Op.forcedExit => { s with trades := forcedExitTick s.trades }
  | Op.closeExit i px => { s with trades := updateAt (settleExit px) i s.trades }
  | Op.expire i => { s with trades := updateAt stepExpire i s.trades }

/-- Run a list of lifecycle operations from a state. -/
def applyOps (s : AccountState) : List Op → AccountState
  | [] => s
  | o :: os => applyOps (applyOp s o) os

/-- The account starts with no trades. -/
def initialState : AccountState := { trades := [] }

/-- Modelled from the spec: the kind of an audit Decision (spec section
3). -/
inductive DecisionType where
  | entryAttempt
  | exitAttempt
  deriving Repr, DecidableEq

/-- Modelled from the spec: the append-only audit Decision record (spec
section 3), reduced to the fields the verified properties touch. -/
structure Decision where
  decisionType : DecisionType
  wasExecuted : Bool
  reason : String
  deriving Repr, DecidableEq

/-- Modelled from the spec: the account kind of spec section 3. -/
inductive AccountType where
  | sim
  | live
  deriving Repr, DecidableEq

/-- Modelled from the spec: the Compliance Guard state (spec section 3):
the rolling-window day-trade count and the configured ceiling. -/
structure ComplianceState where
  tradesInRollingWindow : Nat
  limit : Nat
  deriving Repr, DecidableEq

/-- Modelled from the spec: the Compliance Guard check (spec section
4.5): trading is refused when the rolling-window count has reached the
limit for a live account below the equity threshold; simulation accounts
are exempt. -/
def canTrade (acct : AccountType) (equity threshold : ℚ) (cs : ComplianceState) : Bool :=
  match acct with
  | AccountType.sim => true
  | AccountType.live =>
    if equity < threshold then decide (cs.tradesInRollingWindow < cs.limit) else true

/-- Modelled from the spec: the strategy configuration record (spec
section 3). -/
structure StrategyConfig where
  enabled : Bool
  accountType : AccountType
  deltaTarget : ℚ
  wingWidth : ℚ
  takeProfitPercentage : ℚ
  gapThresholdPercentage : ℚ
  deriving Repr, DecidableEq

/-- Modelled from the spec: the market and compliance inputs read by one
scheduled entry evaluation. -/
structure EntryInputs where
  vixOpen : Option ℚ
  vixPrevClose : Option ℚ
  equity : ℚ
  compliance : ComplianceState
  deriving Repr, DecidableEq

/-- Modelled from the spec: one scheduled entry evaluation (spec section
4.4): the enabled flag and the Compliance Guard are consulted first, the
Gap Evaluator next, and every outcome yields a Decision together with
whether a broker order was submitted. -/
def entryDecision (cfg : StrategyConfig) (inp : EntryInputs) (threshold : ℚ) :
    Decision × Bool :=
  if cfg.enabled = false then
    ({ decisionType := DecisionType.entryAttempt
       wasExecuted := false
       reason := "strategy disabled" }, false)
  else if canTrade cfg.accountType inp.equity threshold inp.compliance = false then
    ({ decisionType := DecisionType.entryAttempt
       wasExecuted := false
       reason := "PDT limit reached" }, false)
  else
    match evaluateGap inp.vixOpen inp.vixPrevClose with
    | Except.error _ =>
      ({ decisionType := DecisionType.entryAttempt
         wasExecuted := false
         reason := "insufficient data" }, false)
    | Except.ok r =>
      if r.isGapUp = false then
        ({ decisionType := DecisionType.entryAttempt
           wasExecuted := false
           reason := "no gap up" }, false)
      else if r.gapPercentage ≤ cfg.gapThresholdPercentage then
        ({ decisionType := DecisionType.entryAttempt
           wasExecuted := false
           reason := "gap below threshold" }, false)
      else
        ({ decisionType := DecisionType.entryAttempt
           wasExecuted := true
           reason := "entry executed" }, true)

/-- Modelled from the spec: a scheduled entry cycle always appends its
Decision to the audit log, never silently skipping the attempt (spec
sections 4.1 and 4.4). -/
def runEntryCycle (cfg : StrategyConfig) (inp : EntryInputs) (threshold : ℚ)
    (log : List Decision) : List Decision × Bool :=
  ((entryDecision cfg inp threshold).1 :: log, (entryDecision cfg inp threshold).2)

/-- Modelled from the spec: the forced-exit trigger handler receives the
strategy configuration but, by the safety invariant of spec section 3,
is never gated by the enabled flag. -/
def forcedExitTrigger (cfg : StrategyConfig) (ts : List Trade) : List Trade :=
  forcedExitTick ts

/-- Modelled from the spec: the per-trigger scheduler state of spec
section 9: a last-fired-date watermark, the audit log and the number of
broker order submissions. -/
structure TriggerState where
  lastFiredDate : Option Nat
  decisions : List Decision
  ordersSubmitted : Nat
  deriving Repr, DecidableEq

/-- Modelled from the spec: the Decision logged for a duplicate trigger
firing (spec section 4.4: a re-fired trigger for a date already
processed is a no-op, logged as a skipped Decision). -/
def skippedDecision (ty : DecisionType) : Decision :=
  { decisionType := ty
    wasExecuted := false
    reason := "duplicate trigger skipped" }

/-- Modelled from the spec: firing a named scheduler trigger on a
calendar date (spec section 4.4).  A date already recorded in the
watermark only logs a skipped Decision; otherwise the evaluation runs,
its Decision is logged, an order is submitted when the evaluation placed
one, and the watermark moves to the date. -/
def fireTrigger (ty : DecisionType) (d : Nat) (outcome : Decision) (placesOrder : Bool)
    (s : TriggerState) : TriggerState :=
  if s.lastFiredDate = some d then
    { s with decisions := skippedDecision ty :: s.decisions }
  else
    { lastFiredDate := some d
      decisions := outcome :: s.decisions
      ordersSubmitted := s.ordersSubmitted + (if placesOrder then 1 else 0) }

/-- The VixData payload rendered by VixMonitor.tsx (frontend/lib/api.ts,
interface VixData). -/
structure VixData where
  currentOpen : ℚ
  currentHigh : ℚ
  currentLow : ℚ
  currentClose : ℚ
  previousClose : Option ℚ
  gapAmount : Option ℚ
  gapPercentage : Option ℚ
  isGapUp : Bool
  deriving Repr, DecidableEq

/-- JavaScript truthiness of the expression x or-else 0 applied to an
optional numeric field, as written in VixMonitor.tsx: an absent value
falls back to 0, and a present 0 is falsy and also yields 0. -/
def jsOrZero (x : Option ℚ) : ℚ :=
  match x with
  | none => 0
  | some v => if v = 0 then 0 else v

/-- The trading-condition test of VixMonitor.tsx lines 120 to 141: the
gap is up and the gapPercentage (or 0) strictly exceeds the hard-coded
constant 5. -/
def entryReadyCond (v : VixData) : Bool :=
  v.isGapUp && decide (5 < jsOrZero v.gapPercentage)

/-- The trading-condition label rendered by VixMonitor.tsx. -/
def tradingCondition (v : VixData) : String :=
  if entryReadyCond v then "ENTRY READY" else "WAITING"

end VixSpy

namespace VixSpy

/-- Helper: replacing one trade never raises the count of trades matching
a predicate that the replacement function reflects. -/
lemma countP_updateAt_le (p : Trade → Bool) (f : Trade → Trade)
    (hf : ∀ t, p (f t) = true → p t = true) (i : Nat) (ts : List Trade) :
    List.countP p (updateAt f i ts) ≤ List.countP p ts := by
  induction ts generalizing i with
  | nil => cases i <;> simp [updateAt]
  | cons t ts ih =>
    cases i with
    | zero =>
      simp only [updateAt]
      rw [List.countP_cons, List.countP_cons]
      by_cases h : p (f t) = true
      · rw [if_pos h, if_pos (hf t h)]
      · rw [if_neg h]
        by_cases h2 : p t = true
        · rw [if_pos h2]
          omega
        · rw [if_neg h2]
    | succ n =>
      simp only [updateAt]
      rw [List.countP_cons, List.countP_cons]
      have := ih n
      omega

/-- Helper: mapping a function that reflects a predicate never raises the
count of elements matching it. -/
lemma countP_map_le (p : Trade → Bool) (f : Trade → Trade)
    (hf : ∀ t, p (f t) = true → p t = true) (ts : List Trade) :
    List.countP p (ts.map f) ≤ List.countP p ts := by
  induction ts with
  | nil => simp
  | cons t ts ih =>
    rw [List.map_cons, List.countP_cons, List.countP_cons]
    by_cases h : p (f t) = true
    · rw [if_pos h, if_pos (hf t h)]
      omega
    · rw [if_neg h]
      by_cases h2 : p t = true
      · rw [if_pos h2]
        omega
      · rw [if_neg h2]
        omega

/-- Helper: every guarded lifecycle step leaves a terminal trade
untouched, hence maps non-terminal images back to non-terminal sources. -/
lemma step_reflects_open {f : Trade → Trade}
    (hf : ∀ t, t.status.isTerminal = true → f t = t) :
    ∀ t : Trade, (!(f t).status.isTerminal) = true → (!t.status.isTerminal) = true := by
  intro t h
  by_cases ht : t.status.isTerminal = true
  · rw [hf t ht] at h
    exact h
  · simp [Bool.not_eq_true] at ht
    simp [ht]

/-- Helper: stepSubmit leaves terminal trades untouched. -/
lemma stepSubmit_terminal (t : Trade) (h : t.status.isTerminal = true) :
    stepSubmit t = t := by
  unfold stepSubmit
  rw [if_neg]
  intro he
  rw [he] at h
  simp [TradeStatus.isTerminal] at h

/-- Helper: stepReject leaves terminal trades untouched. -/
lemma stepReject_terminal (t : Trade) (h : t.status.isTerminal = true) :
    stepReject t = t := by
  unfold stepReject
  rw [if_neg]
  intro he
  rw [he] at h
  simp [TradeStatus.isTerminal] at h

/-- Helper: stepFill leaves terminal trades untouched. -/
lemma stepFill_terminal (px : ℚ) (t : Trade) (h : t.status.isTerminal = true) :
    stepFill px t = t := by
  unfold stepFill
  rw [if_neg]
  intro he
  rw [he] at h
  simp [TradeStatus.isTerminal] at h

/-- Helper: stepMonitor leaves terminal trades untouched. -/
lemma stepMonitor_terminal (t : Trade) (h : t.status.isTerminal = true) :
    stepMonitor t = t := by
  unfold stepMonitor
  rw [if_neg]
  intro he
  rw [he] at h
  simp [TradeStatus.isTerminal] at h

/-- Helper: forcedExitStep leaves terminal trades untouched. -/
lemma forcedExitStep_terminal (t : Trade) (h : t.status.isTerminal = true) :
    forcedExitStep t = t := by
  unfold forcedExitStep
  rw [if_neg]
  intro he
  rw [he] at h
  simp [TradeStatus.isTerminal] at h

/-- Helper: settleExit leaves terminal trades untouched. -/
lemma settleExit_terminal (px : ℚ) (t : Trade) (h : t.status.isTerminal = true) :
    settleExit px t = t := by
  unfold settleExit
  rw [if_neg]
  intro he
  rw [he] at h
  simp [TradeStatus.isTerminal] at h

/-- Helper: stepExpire leaves terminal trades untouched. -/
lemma stepExpire_terminal (t : Trade) (h : t.status.isTerminal = true) :
    stepExpire t = t := by
  unfold stepExpire
  rw [if_neg]
  intro he
  rcases he with he | he <;> rw [he] at h <;> simp [TradeStatus.isTerminal] at h

/-- Helper: an account with no open trade has open count zero. -/
lemma openCount_eq_zero_of_not_open (s : AccountState)
    (h : hasOpenTrade s = false) : openCount s.trades = 0 := by
  unfold hasOpenTrade at h
  unfold openCount
  rw [List.countP_eq_zero]
  intro a ha
  have := List.any_eq_false.mp h a ha
  simpa using this

/-- Helper: every lifecycle operation preserves the bound of at most one
open trade per account. -/
lemma openCount_applyOp (s : AccountState) (o : Op)
    (h : openCount s.trades ≤ 1) : openCount (applyOp s o).trades ≤ 1 := by
  cases o with
  | propose =>
    unfold applyOp proposeTrade
    by_cases hop : hasOpenTrade s = true
    · simp [hop]
      exact h
    · simp at hop
      have h0 := openCount_eq_zero_of_not_open s hop
      simp only [hop, Bool.false_eq_true, if_false]
      unfold openCount at h0 ⊢
      rw [List.countP_cons, h0]
      simp [newTrade, TradeStatus.isTerminal]
  | submit i =>
    unfold applyOp
    exact le_trans
      (countP_updateAt_le _ _ (step_reflects_open stepSubmit_terminal) i s.trades) h
  | reject i =>
    unfold applyOp
    exact le_trans
      (countP_updateAt_le _ _ (step_reflects_open stepReject_terminal) i s.trades) h
  | fill i px =>
    unfold applyOp
    exact le_trans
      (countP_updateAt_le _ _ (step_reflects_open (stepFill_terminal px)) i s.trades) h
  | startMonitoring i =>
    unfold applyOp
    exact le_trans
      (countP_updateAt_le _ _ (step_reflects_open stepMonitor_terminal) i s.trades) h
  | requestExit i =>
    unfold applyOp
    exact le_trans
      (countP_updateAt_le _ _ (step_reflects_open forcedExitStep_terminal) i s.trades) h
  | forcedExit =>
    unfold applyOp forcedExitTick
    exact le_trans
      (countP_map_le _ _ (step_reflects_open forcedExitStep_terminal) s.trades) h
  | closeExit i px =>
    unfold applyOp
    exact le_trans
      (countP_updateAt_le _ _ (step_reflects_open (settleExit_terminal px)) i s.trades) h
  | expire i =>
    unfold applyOp
    exact le_trans
      (countP_updateAt_le _ _ (step_reflects_open stepExpire_terminal) i s.trades) h

/-- Helper: the open-trade bound is preserved along any operation list. -/
lemma openCount_applyOps (ops : List Op) (s : AccountState)
    (h : openCount s.trades ≤ 1) : openCount (applyOps s ops).trades ≤ 1 := by
  induction ops generalizing s with
  | nil => exact h
  | cons o os ih => exact ih (applyOp s o) (openCount_applyOp s o h)

/-- Helper: the JavaScript or-else-zero fallback agrees with Option.getD
at 0, because a present 0 falls back to the same value 0. -/
lemma jsOrZero_eq_getD (x : Option ℚ) : jsOrZero x = x.getD 0 := by
  cases x with
  | none => rfl
  | some v =>
    by_cases h : v = 0 <;> simp [jsOrZero, h]

/-- C1: for every pair of inputs with a positive previous close, the Gap
Evaluator returns gapAmount equal to open minus previousClose,
gapPercentage equal to that difference over previousClose times 100, and
isGapUp exactly when open exceeds previousClose. -/
theorem gap_evaluator_ok (op pc : ℚ) (hpc : 0 < pc) :
    ∃ r : GapResult, evaluateGap (some op) (some pc) = Except.ok r ∧
      r.gapAmount = op - pc ∧
      r.gapPercentage = (op - pc) / pc * 100 ∧
      (r.isGapUp = true ↔ pc < op) := by
  refine ⟨_, rfl, rfl, rfl, ?_⟩
  simp [evaluateGap, decide_eq_true_iff, sub_pos]

/-- Witness for C1: the spec scenario open = 22, previousClose = 20 yields
gapAmount = 2, gapPercentage = 10 and isGapUp = true. -/
theorem gap_evaluator_ok_witness :
    (0 : ℚ) < 20 ∧
    ∃ r : GapResult, evaluateGap (some 22) (some 20) = Except.ok r ∧
      r.gapAmount = 2 ∧ r.gapPercentage = 10 ∧ r.isGapUp = true := by
  refine ⟨by norm_num, ?_⟩
  obtain ⟨r, h1, h2, h3, h4⟩ := gap_evaluator_ok 22 20 (by norm_num)
  refine ⟨r, h1, ?_, ?_, h4.mpr (by norm_num)⟩
  · rw [h2]; norm_num
  · rw [h3]; norm_num

/-- C2: every StructureLegs value produced by the Strike Selector
satisfies the strict ordering putLong < putShort < spot < callShort <
callLong, and both wing widths equal the requested wing width. -/
theorem strike_selector_ordering (spot deltaTarget wingWidth offset : ℚ)
    (legs : StructureLegs)
    (h : selectStrikes spot deltaTarget wingWidth offset = some legs) :
    legs.putLong < legs.putShort ∧ legs.putShort < spot ∧ spot < legs.callShort ∧
    legs.callShort < legs.callLong ∧ legs.putShort - legs.putLong = wingWidth ∧
    legs.callLong - legs.callShort = wingWidth := by
  unfold selectStrikes at h
  by_cases hc : 0 < deltaTarget ∧ deltaTarget < 1 ∧ 0 < wingWidth ∧ 0 < offset
  · rw [if_pos hc] at h
    obtain ⟨hd1, hd2, hww, hoff⟩ := hc
    injection h with h2
    subst h2
    dsimp only
    exact ⟨by linarith, by linarith, by linarith, by linarith, by ring, by ring⟩
  · rw [if_neg hc] at h
    exact absurd h (by simp)

/-- Witness for C2: the spec scenario spot = 450, deltaTarget = 0.3,
wingWidth = 10 (with chain offset 15) yields strikes 425 < 435 < 450 <
465 < 475 with both wings of width 10. -/
theorem strike_selector_ordering_witness :
    selectStrikes 450 (3 / 10) 10 15 =
      some { putLong := 425, putShort := 435, callShort := 465, callLong := 475 } ∧
    (425 : ℚ) < 435 ∧ (435 : ℚ) < 450 ∧ (450 : ℚ) < 465 ∧ (465 : ℚ) < 475 ∧
    (435 : ℚ) - 425 = 10 ∧ (475 : ℚ) - 465 = 10 := by
  have h : selectStrikes 450 (3 / 10) 10 15 =
      some { putLong := 425, putShort := 435, callShort := 465, callLong := 475 } := by
    norm_num [selectStrikes]
  obtain ⟨h1, h2, h3, h4, h5, h6⟩ := strike_selector_ordering 450 (3 / 10) 10 15 _ h
  exact ⟨h, h1, h2, h3, h4, h5, h6⟩

/-- C3: along every operation sequence from the empty account at most one
trade is in a non-terminal state, and proposing a new trade while one is
open is refused with PositionAlreadyOpen and changes nothing. -/
theorem single_open_invariant (ops : List Op) (s : AccountState)
    (h : hasOpenTrade s = true) :
    openCount (applyOps initialState ops).trades ≤ 1 ∧
    proposeTrade s = Except.error EngineError.PositionAlreadyOpen ∧
    applyOp s Op.propose = s := by
  have hp : proposeTrade s = Except.error EngineError.PositionAlreadyOpen := by
    unfold proposeTrade
    rw [if_pos h]
  refine ⟨openCount_applyOps ops initialState (by simp [initialState, openCount]), hp, ?_⟩
  simp [applyOp, hp]

/-- Witness for C3: after one successful proposal the account has an open
trade, the open count is within the bound, and a second proposal is
refused with PositionAlreadyOpen leaving the state unchanged. -/
theorem single_open_invariant_witness :
    hasOpenTrade (applyOps initialState [Op.propose]) = true ∧
    openCount (applyOps initialState [Op.propose]).trades ≤ 1 ∧
    proposeTrade (applyOps initialState [Op.propose]) =
      Except.error EngineError.PositionAlreadyOpen ∧
    applyOp (applyOps initialState [Op.propose]) Op.propose =
      applyOps initialState [Op.propose] := by
  have h : hasOpenTrade (applyOps initialState [Op.propose]) = true := by decide
  exact ⟨h, single_open_invariant [Op.propose] _ h⟩

/-- C4: at the forced-exit tick every trade still in Monitoring moves to
ExitRequested regardless of its running profit or loss, no Monitoring
trade remains, and within the same cycle the trade is Closed with
realizedPnl computed as entry price minus exit price. -/
theorem forced_exit_monitoring (ts : List Trade) (t : Trade) (px : ℚ)
    (hmem : t ∈ ts) (hst : t.status = TradeStatus.Monitoring) :
    (forcedExitStep t).status = TradeStatus.ExitRequested ∧
    List.countP (fun u => decide (u.status = TradeStatus.Monitoring)) (forcedExitTick ts) = 0 ∧
    settleExit px (forcedExitStep t) ∈ forcedExitCycle px ts ∧
    (settleExit px (forcedExitStep t)).status = TradeStatus.Closed ∧
    (settleExit px (forcedExitStep t)).realizedPnl = some (t.entryPrice.getD 0 - px) := by
  have h1 : (forcedExitStep t).status = TradeStatus.ExitRequested := by
    unfold forcedExitStep
    rw [if_pos hst]
  refine ⟨h1, ?_, ?_, ?_, ?_⟩
  · rw [List.countP_eq_zero]
    intro u hu
    simp only [forcedExitTick, List.mem_map] at hu
    obtain ⟨t2, ht2, rfl⟩ := hu
    unfold forcedExitStep
    by_cases h2 : t2.status = TradeStatus.Monitoring
    · rw [if_pos h2]
      simp
    · rw [if_neg h2]
      simpa using h2
  · exact List.mem_map_of_mem _ (List.mem_map_of_mem _ hmem)
  · unfold settleExit
    rw [if_pos h1]
  · have he : (forcedExitStep t).entryPrice = t.entryPrice := by
      unfold forcedExitStep
      rw [if_pos hst]
    unfold settleExit
    rw [if_pos h1]
    dsimp only
    rw [he]

/-- Witness for C4: a Monitoring trade with entry credit 2 at a forced
exit filled at 3 is closed with a negative realized loss of 1, showing
the forced exit fires regardless of the sign of the profit or loss. -/
theorem forced_exit_monitoring_witness :
    (⟨TradeStatus.Monitoring, some 2, none, none⟩ : Trade) ∈
      [(⟨TradeStatus.Monitoring, some 2, none, none⟩ : Trade)] ∧
    (⟨TradeStatus.Monitoring, some 2, none, none⟩ : Trade).status = TradeStatus.Monitoring ∧
    (forcedExitStep ⟨TradeStatus.Monitoring, some 2, none, none⟩).status =
      TradeStatus.ExitRequested ∧
    List.countP (fun u => decide (u.status = TradeStatus.Monitoring))
      (forcedExitTick [⟨TradeStatus.Monitoring, some 2, none, none⟩]) = 0 ∧
    settleExit 3 (forcedExitStep ⟨TradeStatus.Monitoring, some 2, none, none⟩) ∈
      forcedExitCycle 3 [⟨TradeStatus.Monitoring, some 2, none, none⟩] ∧
    (settleExit 3 (forcedExitStep ⟨TradeStatus.Monitoring, some 2, none, none⟩)).status =
      TradeStatus.Closed ∧
    (settleExit 3 (forcedExitStep ⟨TradeStatus.Monitoring, some 2, none, none⟩)).realizedPnl =
      some ((2 : ℚ) - 3) := by
  have hmem : (⟨TradeStatus.Monitoring, some 2, none, none⟩ : Trade) ∈
      [(⟨TradeStatus.Monitoring, some 2, none, none⟩ : Trade)] := by simp
  have hst : (⟨TradeStatus.Monitoring, some 2, none, none⟩ : Trade).status =
      TradeStatus.Monitoring := rfl
  exact ⟨hmem, hst, forced_exit_monitoring _ _ 3 hmem hst⟩

/-- C5: firing the same scheduler trigger twice for one calendar date
runs the evaluation once: the second firing only logs a skipped Decision
with wasExecuted false, submits no further order and leaves the
watermark at that date. -/
theorem trigger_idempotent (ty : DecisionType) (d : Nat) (outcome : Decision)
    (placesOrder : Bool) (s0 : TriggerState) (h : s0.lastFiredDate ≠ some d) :
    fireTrigger ty d outcome placesOrder (fireTrigger ty d outcome placesOrder s0) =
      { lastFiredDate := some d
        decisions := skippedDecision ty :: outcome :: s0.decisions
        ordersSubmitted := s0.ordersSubmitted + (if placesOrder then 1 else 0) } ∧
    (fireTrigger ty d outcome placesOrder
        (fireTrigger ty d outcome placesOrder s0)).ordersSubmitted =
      (fireTrigger ty d outcome placesOrder s0).ordersSubmitted ∧
    (skippedDecision ty).wasExecuted = false := by
  have h1 : fireTrigger ty d outcome placesOrder s0 =
      { lastFiredDate := some d
        decisions := outcome :: s0.decisions
        ordersSubmitted := s0.ordersSubmitted + (if placesOrder then 1 else 0) } := by
    unfold fireTrigger
    rw [if_neg h]
  have h2 : fireTrigger ty d outcome placesOrder (fireTrigger ty d outcome placesOrder s0) =
      { lastFiredDate := some d
        decisions := skippedDecision ty :: outcome :: s0.decisions
        ordersSubmitted := s0.ordersSubmitted + (if placesOrder then 1 else 0) } := by
    rw [h1]
    unfold fireTrigger
    rw [if_pos rfl]
  exact ⟨h2, by rw [h2, h1], rfl⟩

/-- Witness for C5: a first firing on date 7 logs the executed entry
Decision and one order; the duplicate firing only logs the skipped
Decision and submits nothing further. -/
theorem trigger_idempotent_witness :
    (⟨none, [], 0⟩ : TriggerState).lastFiredDate ≠ some 7 ∧
    fireTrigger DecisionType.entryAttempt 7
        ⟨DecisionType.entryAttempt, true, "entry executed"⟩ true
        (fireTrigger DecisionType.entryAttempt 7
          ⟨DecisionType.entryAttempt, true, "entry executed"⟩ true ⟨none, [], 0⟩) =
      { lastFiredDate := some 7
        decisions := [skippedDecision DecisionType.entryAttempt,
          ⟨DecisionType.entryAttempt, true, "entry executed"⟩]
        ordersSubmitted := 1 } ∧
    (fireTrigger DecisionType.entryAttempt 7
        ⟨DecisionType.entryAttempt, true, "entry executed"⟩ true
        (fireTrigger DecisionType.entryAttempt 7
          ⟨DecisionType.entryAttempt, true, "entry executed"⟩ true
          ⟨none, [], 0⟩)).ordersSubmitted =
      (fireTrigger DecisionType.entryAttempt 7
        ⟨DecisionType.entryAttempt, true, "entry executed"⟩ true
        ⟨none, [], 0⟩).ordersSubmitted ∧
    (skippedDecision DecisionType.entryAttempt).wasExecuted = false := by
  have h : (⟨none, [], 0⟩ : TriggerState).lastFiredDate ≠ some 7 := by decide
  obtain ⟨h1, h2, h3⟩ := trigger_idempotent DecisionType.entryAttempt 7
    ⟨DecisionType.entryAttempt, true, "entry executed"⟩ true ⟨none, [], 0⟩ h
  exact ⟨h, h1, h2, h3⟩

/-- C6: the Compliance Guard returns false exactly when the rolling
window has reached the limit for a live account below the equity
threshold, simulation accounts are always exempt, and a blocked check
turns the entry attempt into a Decision with reason PDT limit reached
and no submitted order. -/
theorem pdt_guard (cfg : StrategyConfig) (inp : EntryInputs) (threshold : ℚ)
    (h1 : cfg.enabled = true) :
    (canTrade cfg.accountType inp.equity threshold inp.compliance = false ↔
      cfg.accountType = AccountType.live ∧ inp.equity < threshold ∧
      inp.compliance.limit ≤ inp.compliance.tradesInRollingWindow) ∧
    (cfg.accountType = AccountType.sim →
      canTrade cfg.accountType inp.equity threshold inp.compliance = true) ∧
    (canTrade cfg.accountType inp.equity threshold inp.compliance = false →
      entryDecision cfg inp threshold =
        ({ decisionType := DecisionType.entryAttempt
           wasExecuted := false
           reason := "PDT limit reached" }, false)) := by
  refine ⟨?_, ?_, ?_⟩
  · cases hacct : cfg.accountType with
    | sim => simp [canTrade]
    | live =>
      by_cases he : inp.equity < threshold
      · simp [canTrade, he, decide_eq_false_iff_not, Nat.not_lt]
      · simp [canTrade, he]
  · intro hs
    simp [canTrade, hs]
  · intro hct
    unfold entryDecision
    rw [if_neg (by simp [h1]), if_pos hct]

/-- Witness for C6: the spec scenario of a live account below the equity
threshold with 5 of 5 rolling-window trades used: the guard blocks, the
Decision carries reason PDT limit reached and no order is submitted. -/
theorem pdt_guard_witness :
    (⟨true, AccountType.live, 3 / 10, 10, 1 / 4, 5⟩ : StrategyConfig).enabled = true ∧
    canTrade AccountType.live 10000 25000 ⟨5, 5⟩ = false ∧
    entryDecision ⟨true, AccountType.live, 3 / 10, 10, 1 / 4, 5⟩
        ⟨some 22, some 20, 10000, ⟨5, 5⟩⟩ 25000 =
      ({ decisionType := DecisionType.entryAttempt
         wasExecuted := false
         reason := "PDT limit reached" }, false) := by
  have h1 : (⟨true, AccountType.live, 3 / 10, 10, 1 / 4, 5⟩ : StrategyConfig).enabled = true := rfl
  have hct : canTrade AccountType.live 10000 25000 ⟨5, 5⟩ = false := by decide
  obtain ⟨ha, hb, hc⟩ := pdt_guard ⟨true, AccountType.live, 3 / 10, 10, 1 / 4, 5⟩
    ⟨some 22, some 20, 10000, ⟨5, 5⟩⟩ 25000 h1
  exact ⟨h1, hct, hc hct⟩

/-- C7: a missing Gap Evaluator input makes the evaluation fail with
InsufficientData, and the scheduled entry cycle records that attempt as
a Decision with wasExecuted false appended to the audit log, never
silently skipping it. -/
theorem insufficient_data_recorded (cfg : StrategyConfig) (inp : EntryInputs)
    (threshold : ℚ) (log : List Decision)
    (h1 : cfg.enabled = true)
    (h2 : canTrade cfg.accountType inp.equity threshold inp.compliance = true)
    (h3 : inp.vixOpen = none ∨ inp.vixPrevClose = none) :
    evaluateGap inp.vixOpen inp.vixPrevClose = Except.error GapError.InsufficientData ∧
    entryDecision cfg inp threshold =
      ({ decisionType := DecisionType.entryAttempt
         wasExecuted := false
         reason := "insufficient data" }, false) ∧
    runEntryCycle cfg inp threshold log =
      ({ decisionType := DecisionType.entryAttempt
         wasExecuted := false
         reason := "insufficient data" } :: log, false) := by
  have hgap : evaluateGap inp.vixOpen inp.vixPrevClose =
      Except.error GapError.InsufficientData := by
    rcases h3 with h3 | h3
    · rw [h3]
      cases inp.vixPrevClose <;> rfl
    · rw [h3]
      cases inp.vixOpen <;> rfl
  have hed : entryDecision cfg inp threshold =
      ({ decisionType := DecisionType.entryAttempt
         wasExecuted := false
         reason := "insufficient data" }, false) := by
    unfold entryDecision
    rw [if_neg (by simp [h1]), if_neg (by simp [h2]), hgap]
  refine ⟨hgap, hed, ?_⟩
  unfold runEntryCycle
  rw [hed]

/-- Witness for C7: with the current-session open missing, the evaluation
fails with InsufficientData and the cycle appends a wasExecuted-false
Decision to the empty log. -/
theorem insufficient_data_recorded_witness :
    (⟨true, AccountType.sim, 3 / 10, 10, 1 / 4, 5⟩ : StrategyConfig).enabled = true ∧
    canTrade AccountType.sim 10000 25000 ⟨0, 5⟩ = true ∧
    ((⟨none, some 20, 10000, ⟨0, 5⟩⟩ : EntryInputs).vixOpen = none ∨
      (⟨none, some 20, 10000, ⟨0, 5⟩⟩ : EntryInputs).vixPrevClose = none) ∧
    evaluateGap none (some 20) = Except.error GapError.InsufficientData ∧
    entryDecision ⟨true, AccountType.sim, 3 / 10, 10, 1 / 4, 5⟩
        ⟨none, some 20, 10000, ⟨0, 5⟩⟩ 25000 =
      ({ decisionType := DecisionType.entryAttempt
         wasExecuted := false
         reason := "insufficient data" }, false) ∧
    runEntryCycle ⟨true, AccountType.sim, 3 / 10, 10, 1 / 4, 5⟩
        ⟨none, some 20, 10000, ⟨0, 5⟩⟩ 25000 [] =
      ([{ decisionType := DecisionType.entryAttempt
          wasExecuted := false
          reason := "insufficient data" }], false) := by
  have h3 : (⟨none, some 20, 10000, ⟨0, 5⟩⟩ : EntryInputs).vixOpen = none ∨
      (⟨none, some 20, 10000, ⟨0, 5⟩⟩ : EntryInputs).vixPrevClose = none := Or.inl rfl
  obtain ⟨ha, hb, hc⟩ := insufficient_data_recorded
    ⟨true, AccountType.sim, 3 / 10, 10, 1 / 4, 5⟩
    ⟨none, some 20, 10000, ⟨0, 5⟩⟩ 25000 [] rfl rfl h3
  exact ⟨rfl, rfl, h3, ha, hb, hc⟩

/-- C8: settling a trade from ExitRequested to Closed records the exit
price and realizedPnl equal to entry price minus exit price, positive
exactly when the structure was bought back below its entry credit. -/
theorem realized_pnl_on_close (t : Trade) (e px : ℚ)
    (hst : t.status = TradeStatus.ExitRequested) (he : t.entryPrice = some e) :
    (settleExit px t).status = TradeStatus.Closed ∧
    (settleExit px t).exitPrice = some px ∧
    (settleExit px t).realizedPnl = some (e - px) ∧
    (0 < e - px ↔ px < e) := by
  unfold settleExit
  rw [if_pos hst]
  refine ⟨rfl, rfl, ?_, sub_pos⟩
  simp [he]

/-- Witness for C8: an ExitRequested trade entered at credit 5/2 and
exited at 1 closes with realizedPnl 5/2 minus 1, a profit. -/
theorem realized_pnl_on_close_witness :
    (⟨TradeStatus.ExitRequested, some (5 / 2), none, none⟩ : Trade).status =
      TradeStatus.ExitRequested ∧
    (⟨TradeStatus.ExitRequested, some (5 / 2), none, none⟩ : Trade).entryPrice =
      some (5 / 2) ∧
    (settleExit 1 ⟨TradeStatus.ExitRequested, some (5 / 2), none, none⟩).status =
      TradeStatus.Closed ∧
    (settleExit 1 ⟨TradeStatus.ExitRequested, some (5 / 2), none, none⟩).exitPrice =
      some 1 ∧
    (settleExit 1 ⟨TradeStatus.ExitRequested, some (5 / 2), none, none⟩).realizedPnl =
      some ((5 / 2 : ℚ) - 1) ∧
    (0 < (5 / 2 : ℚ) - 1 ↔ (1 : ℚ) < 5 / 2) := by
  exact ⟨rfl, rfl, realized_pnl_on_close ⟨TradeStatus.ExitRequested, some (5 / 2), none, none⟩
    (5 / 2) 1 rfl rfl⟩

/-- C9: a disabled strategy configuration turns every automated entry
attempt into a refused Decision with no order, while the forced exit of
an open Monitoring position still fires and does not depend on the
configuration at all. -/
theorem enabled_gates_entry_not_exit (cfg cfg2 : StrategyConfig) (inp : EntryInputs)
    (threshold : ℚ) (ts : List Trade) (t : Trade)
    (hdis : cfg.enabled = false) (hmem : t ∈ ts) (hst : t.status = TradeStatus.Monitoring) :
    entryDecision cfg inp threshold =
      ({ decisionType := DecisionType.entryAttempt
         wasExecuted := false
         reason := "strategy disabled" }, false) ∧
    forcedExitStep t ∈ forcedExitTrigger cfg ts ∧
    (forcedExitStep t).status = TradeStatus.ExitRequested ∧
    forcedExitTrigger cfg ts = forcedExitTrigger cfg2 ts := by
  refine ⟨?_, ?_, ?_, rfl⟩
  · unfold entryDecision
    rw [if_pos hdis]
  · exact List.mem_map_of_mem _ hmem
  · unfold forcedExitStep
    rw [if_pos hst]

/-- Witness for C9: with the strategy disabled on a live account, the
entry attempt is refused with reason strategy disabled while the open
Monitoring trade is still forced into ExitRequested; an enabled sim
configuration produces the same forced-exit result. -/
theorem enabled_gates_entry_not_exit_witness :
    (⟨false, AccountType.live, 3 / 10, 10, 1 / 4, 5⟩ : StrategyConfig).enabled = false ∧
    (⟨TradeStatus.Monitoring, some 2, none, none⟩ : Trade) ∈
      [(⟨TradeStatus.Monitoring, some 2, none, none⟩ : Trade)] ∧
    (⟨TradeStatus.Monitoring, some 2, none, none⟩ : Trade).status = TradeStatus.Monitoring ∧
    entryDecision ⟨false, AccountType.live, 3 / 10, 10, 1 / 4, 5⟩
        ⟨some 22, some 20, 10000, ⟨0, 5⟩⟩ 25000 =
      ({ decisionType := DecisionType.entryAttempt
         wasExecuted := false
         reason := "strategy disabled" }, false) ∧
    forcedExitStep ⟨TradeStatus.Monitoring, some 2, none, none⟩ ∈
      forcedExitTrigger ⟨false, AccountType.live, 3 / 10, 10, 1 / 4, 5⟩
        [⟨TradeStatus.Monitoring, some 2, none, none⟩] ∧
    (forcedExitStep ⟨TradeStatus.Monitoring, some 2, none, none⟩).status =
      TradeStatus.ExitRequested ∧
    forcedExitTrigger ⟨false, AccountType.live, 3 / 10, 10, 1 / 4, 5⟩
        [⟨TradeStatus.Monitoring, some 2, none, none⟩] =
      forcedExitTrigger ⟨true, AccountType.sim, 3 / 10, 10, 1 / 4, 5⟩
        [⟨TradeStatus.Monitoring, some 2, none, none⟩] := by
  have hmem : (⟨TradeStatus.Monitoring, some 2, none, none⟩ : Trade) ∈
      [(⟨TradeStatus.Monitoring, some 2, none, none⟩ : Trade)] := by simp
  have hst : (⟨TradeStatus.Monitoring, some 2, none, none⟩ : Trade).status =
      TradeStatus.Monitoring := rfl
  exact ⟨rfl, hmem, hst, enabled_gates_entry_not_exit
    ⟨false, AccountType.live, 3 / 10, 10, 1 / 4, 5⟩
    ⟨true, AccountType.sim, 3 / 10, 10, 1 / 4, 5⟩
    ⟨some 22, some 20, 10000, ⟨0, 5⟩⟩ 25000 _ _ rfl hmem hst⟩

/-- C10: the VixMonitor dashboard reports ENTRY READY exactly when isGapUp
holds and the gapPercentage, taken as 0 when absent, strictly exceeds the
hard-coded constant 5 of VixMonitor.tsx, and reports WAITING in every
other case; the test never consults the configured threshold. -/
theorem vix_monitor_entry_ready (v : VixData) :
    (tradingCondition v = "ENTRY READY" ↔
      v.isGapUp = true ∧ 5 < v.gapPercentage.getD 0) ∧
    (tradingCondition v = "WAITING" ↔
      ¬(v.isGapUp = true ∧ 5 < v.gapPercentage.getD 0)) := by
  have hq : entryReadyCond v = true ↔
      (v.isGapUp = true ∧ 5 < v.gapPercentage.getD 0) := by
    unfold entryReadyCond
    rw [jsOrZero_eq_getD]
    simp
  constructor
  · constructor
    · intro h
      by_cases hc : entryReadyCond v = true
      · exact hq.mp hc
      · exfalso
        unfold tradingCondition at h
        rw [if_neg hc] at h
        exact absurd h (by decide)
    · intro h
      unfold tradingCondition
      rw [if_pos (hq.mpr h)]
  · constructor
    · intro h hcon
      unfold tradingCondition at h
      rw [if_pos (hq.mpr hcon)] at h
      exact absurd h (by decide)
    · intro h
      unfold tradingCondition
      rw [if_neg (fun hc => h (hq.mp hc))]

end VixSpy
